import Mathlib

/-!
Shallow embedding of `python/helpers/pycharm/docrunner.py`: a doctest runner
that reports results as TeamCity service messages. The doctest library itself
(parsing, output checking, traceback formatting) and the file system are
external collaborators; they are abstracted as oracle functions bundled in
`Env`. Everything the script itself computes (names, locations, message
order, outcome classification, module-registry keys, driver dispatch) is
embedded faithfully from the source.
-/

namespace Docrunner

/-- CPython doctest option-flag bit values (doctest module constants). -/
def SKIP : Nat := 16

/-- CPython doctest flag: relaxed exception-detail comparison. Note that
docrunner.py line 141 refers to this constant by the bare name
`IGNORE_EXCEPTION_DETAIL` without importing it from the doctest module. -/
def IGNORE_EXCEPTION_DETAIL : Nat := 32

/-- One executable snippet, as produced by doctest's parser
(`doctest.Example`): source text, expected output `want`, 0-based line
offset within the group, optional expected-exception message `exc_msg`,
and per-example option overrides (flag bitmask, set-or-clear). -/
structure Example where
  source : String
  want : String
  lineno : Nat
  exc_msg : Option String
  options : List (Nat × Bool)
deriving DecidableEq

/-- One example group (`doctest.DocTest`): name, source file, group start
line, and the ordered examples. -/
structure DocTest where
  name : String
  filename : String
  lineno : Nat
  examples : List Example
deriving DecidableEq

/-- Recompute the runner's option flags for one example (docrunner.py lines
93-99): reset to the baseline, then apply each override in order; a true
value sets the flag bits (`|=`), a false value clears them (`&= ~`, which
on non-negative integers equals subtracting the common bits). -/
def applyOptions (base : Nat) (opts : List (Nat × Bool)) : Nat :=
  opts.foldl (fun f o => if o.2 then f ||| o.1 else f - (f &&& o.1)) base

/-- Effective option flags for one example. -/
def exampleFlags (base : Nat) (e : Example) : Nat :=
  applyOptions base e.options

/-- Whether an example is skipped (docrunner.py lines 101-103:
`doctest.SKIP` exists in every supported doctest, so the `hasattr` guard is
always true). -/
def skipped (base : Nat) (e : Example) : Bool :=
  exampleFlags base e &&& SKIP != 0

/-- A fault raised while executing an example's code: either a
KeyboardInterrupt (re-raised by docrunner.py line 116-117) or an ordinary
exception, carried as the last line of
`traceback.format_exception_only(...)`, the string the runner compares
against `exc_msg`. -/
inductive Fault where
  | keyboardInterrupt
  | exc (msg : String)
deriving DecidableEq

/-- The protocol messages emitted on standard output. Field sets are
modelled from the spec (section 6): the wire syntax lives in tcmessages.py,
which is outside src; only the field values computed by docrunner.py /
tcunittest.py are modelled. `testFinished` is what
`TeamcityTestResult.stopTest` emits on success (modelled from the spec,
tcunittest.py being outside src). -/
inductive Msg where
  | testSuiteStarted (name location : String)
  | testSuiteFinished (name : String)
  | testStarted (name location : String)
  | testFinished (name : String)
  | testFailed (name message details : String)
  | testError (name message details : String)
  | testCount (count : Nat)
  | testMatrixEntered
deriving DecidableEq

/-- External collaborators of the runner, abstracted as oracles:
`check` is `OutputChecker.check_output` (expected, actual, flags);
`execute` runs one example's compiled source and yields the captured
standard output together with an optional fault;
`realpath` is `os.path.realpath`;
`failureHeader`, `outputDifference` and `excTraceback` are the doctest
formatting helpers used only to build the `details` field. -/
structure Env where
  check : String → String → Nat → Bool
  execute : Example → String × Option Fault
  realpath : String → String
  failureHeader : DocTest → Example → String
  outputDifference : Example → String → Nat → String
  excTraceback : Fault → String

/-- `TeamcityDocTestResult.getTestName`: the current suite's name
concatenated with the example's source text (docrunner.py lines 18-20). -/
def getTestName (suite : DocTest) (e : Example) : String :=
  suite.name ++ e.source

/-- `TeamcityDocTestResult.getTestId` (docrunner.py lines 29-31):
location of one example. -/
def getTestId (rp : String → String) (suite : DocTest) (e : Example) : String :=
  "file://" ++ rp suite.filename ++ ":" ++ Nat.repr (suite.lineno + e.lineno)

/-- `TeamcityDocTestResult.getSuiteLocation` (docrunner.py lines 33-35). -/
def getSuiteLocation (rp : String → String) (suite : DocTest) : String :=
  "file://" ++ rp suite.filename ++ ":" ++ Nat.repr suite.lineno

/-- The way a run of one group can abort: a KeyboardInterrupt re-raised
out of the example loop (docrunner.py line 116-117), or the NameError
raised when line 141 evaluates the unimported name
`IGNORE_EXCEPTION_DETAIL` (the script never binds that name, so reaching
that branch raises `NameError` at runtime). -/
inductive RunFault where
  | keyboardInterrupt
  | nameError (name : String)
deriving DecidableEq

/-- Result of processing one example inside `DocTestRunner.__run`: either
the protocol messages it emits, or an abort that propagates out of the
loop. -/
inductive StepResult where
  | msgs (ms : List Msg)
  | abort (f : RunFault)
deriving DecidableEq

/-- One iteration of the example loop of `DocTestRunner.__run`
(docrunner.py lines 88-165). `quiet` is always false because the local
`failures` counter is never incremented, so `REPORT_ONLY_FIRST_FAILURE`
is inert. The SKIP check precedes execution; a KeyboardInterrupt is
re-raised; otherwise the outcome is classified exactly as in lines
124-146 and reported as in lines 148-165. When an expected-exception
message is declared but does not match, line 141 evaluates the unbound
name `IGNORE_EXCEPTION_DETAIL` and the iteration aborts with a NameError
before any relaxed comparison (and before any report for this example). -/
def runExample (env : Env) (base : Nat) (test : DocTest) (e : Example) : StepResult :=
  let flags := exampleFlags base e
  if flags &&& SKIP != 0 then
    .msgs []
  else
    let r := env.execute e
    let got := r.1
    match r.2 with
    | some Fault.keyboardInterrupt => .abort .keyboardInterrupt
    | none =>
      if env.check e.want got flags then
        .msgs [.testStarted (getTestName test e) (getTestId env.realpath test e),
               .testFinished (getTestName test e)]
      else
        .msgs [.testStarted (getTestName test e) (getTestId env.realpath test e),
               .testFailed (getTestName test e) "Failure"
                 (env.failureHeader test e ++ env.outputDifference e got flags)]
    | some (Fault.exc m) =>
      match e.exc_msg with
      | none =>
        .msgs [.testStarted (getTestName test e) (getTestId env.realpath test e),
               .testError (getTestName test e) "Error"
                 (env.failureHeader test e ++ "Exception raised:\n"
                   ++ env.excTraceback (Fault.exc m))]
      | some wantExc =>
        if env.check wantExc m flags then
          .msgs [.testStarted (getTestName test e) (getTestId env.realpath test e),
                 .testFinished (getTestName test e)]
        else
          .abort (.nameError "IGNORE_EXCEPTION_DETAIL")

/-- The example loop: concatenates each example's messages in order; an
abort keeps the messages already emitted and stops the loop. -/
def runLoop (env : Env) (base : Nat) (test : DocTest) :
    List Example → Except (RunFault × List Msg) (List Msg)
  | [] => .ok []
  | e :: es =>
    match runExample env base test e with
    | .abort f => .error (f, [])
    | .msgs ms =>
      match runLoop env base test es with
      | .ok rest => .ok (ms ++ rest)
      | .error (f, rest) => .error (f, ms ++ rest)

/-- `DocTestRunner.__run` on one group (docrunner.py lines 81-169):
`startSuite` emits testSuiteStarted with the suite location, then the
example loop runs, then `stopSuite` emits testSuiteFinished; an abort
escapes before testSuiteFinished, keeping the partial output. -/
def runOne (env : Env) (base : Nat) (test : DocTest) :
    Except (RunFault × List Msg) (List Msg) :=
  match runLoop env base test test.examples with
  | .ok ms =>
    .ok (.testSuiteStarted test.name (getSuiteLocation env.realpath test)
          :: ms ++ [.testSuiteFinished test.name])
  | .error (f, ms) =>
    .error (f, .testSuiteStarted test.name (getSuiteLocation env.realpath test) :: ms)

/-- `DocTestRunner.start` (docrunner.py lines 77-79): run each stored
group in order; an abort in one group stops the whole run. -/
def runAll (env : Env) (base : Nat) :
    List DocTest → Except (RunFault × List Msg) (List Msg)
  | [] => .ok []
  | t :: ts =>
    match runOne env base t with
    | .error (f, ms) => .error (f, ms)
    | .ok ms =>
      match runAll env base ts with
      | .ok rest => .ok (ms ++ rest)
      | .error (f, rest) => .error (f, ms ++ rest)

/-- A loaded module as the driver sees it: its members, each carrying the
doctests the finder would extract from it (`doctest.DocTestFinder.find`
is external; its results are data here). -/
structure ModuleInfo where
  members : List (String × List DocTest)
deriving DecidableEq

/-- Outcome of `loadSource` on a file: a module, or the SyntaxError that
`imp.load_source` raises on a file that is not valid Python. -/
inductive LoadResult where
  | ok (m : ModuleInfo)
  | syntaxError
deriving DecidableEq

/-- One parsed command-line target, restricted to the shapes the claims
exercise: a single-file target together with the groups the finder (or
`testfile`) produced for it, or a `path::ClassName` target together with
the result of loading the file. -/
inductive Arg where
  | fromFile (path : String) (found : List DocTest)
  | fromClass (path cls : String) (load : LoadResult)
deriving DecidableEq

/-- Resolve one argument to the doctests added to the runner (docrunner.py
lines 266-340). For a plain file, only groups with a non-empty example
list are added (lines 297-299 and 217-218). For `path::ClassName`, a
SyntaxError on load becomes `NameError('File "%s" is not python file')`
(lines 304-307); a missing member becomes
`NameError('Module "%s" has no class "%s"')` (lines 312-313); on success
the finder's tests are added with no non-empty filter (line 311). -/
def resolveArg : Arg → Except String (List DocTest)
  | .fromFile _ found => .ok (found.filter (fun t => !t.examples.isEmpty))
  | .fromClass path cls load =>
    match load with
    | .syntaxError => .error ("File \x22" ++ path ++ "\x22 is not python file")
    | .ok m =>
      match m.members.lookup cls with
      | none => .error ("Module \x22" ++ path ++ "\x22 has no class \x22" ++ cls ++ "\x22")
      | some tests => .ok tests

/-- Resolve all arguments in order (the `for arg in sys.argv[1:]` loop); a
raised NameError propagates immediately, before any protocol message. -/
def resolveArgs : List Arg → Except String (List DocTest)
  | [] => .ok []
  | a :: rest =>
    match resolveArg a with
    | .error msg => .error msg
    | .ok ts =>
      match resolveArgs rest with
      | .error msg => .error msg
      | .ok rest' => .ok (ts ++ rest')

/-- How a whole driver run can fail: a NameError raised while resolving
targets (before any protocol message), or an abort inside the running
phase, carrying the messages emitted up to that point. -/
inductive DriverError where
  | nameError (msg : String)
  | runAbort (f : RunFault) (emitted : List Msg)
deriving DecidableEq

/-- The driver's `__main__` tail (docrunner.py lines 263-345): resolve all
targets, then emit `testMatrixEntered` (line 343), then `testCount` with
`runner.countTests()` = the number of stored groups (lines 74-75, 344),
then run the groups (line 345). The runner is constructed with
`optionflags=0`, so the baseline flags are 0. -/
def mainRunResolved (env : Env) (ts : List DocTest) : Except DriverError (List Msg) :=
  match runAll env 0 ts with
  | .ok ms => .ok (.testMatrixEntered :: .testCount ts.length :: ms)
  | .error (f, ms) => .error (.runAbort f (.testMatrixEntered :: .testCount ts.length :: ms))

/-- The whole `__main__` body: resolve, then announce and run. -/
def mainRun (env : Env) (args : List Arg) : Except DriverError (List Msg) :=
  match resolveArgs args with
  | .error msg => .error (.nameError msg)
  | .ok ts => mainRunResolved env ts

/-- The protocol messages actually written to standard output by a run:
a NameError during resolution is raised before any message is emitted. -/
def emittedOf : Except DriverError (List Msg) → List Msg
  | .ok ms => ms
  | .error (.nameError _) => []
  | .error (.runAbort _ ms) => ms

/-- The messages written by running one group, whether or not it aborted. -/
def traceOf : Except (RunFault × List Msg) (List Msg) → List Msg
  | .ok ms => ms
  | .error (_, ms) => ms

/-- Modelled from the spec: `utrunner.getModuleName` is not under src;
per the spec (section 4.1) collisions are resolved by "appending an
incrementing numeric suffix", so the candidate for counter `cnt` is the
base name followed by the decimal representation of `cnt`. -/
def getModuleName (base : String) (cnt : Nat) : String :=
  base ++ Nat.repr cnt

/-- The collision loop of `loadSource` (docrunner.py lines 195-199):
starting at counter 2, increment until `getModuleName base cnt` is absent
from the registry. The Python loop has no fuel; the model carries fuel
and is always called with enough (one more than the registry size), which
`findCnt_spec` below proves sufficient. -/
def findCnt (base : String) (reg : List String) : Nat → Nat → Nat
  | 0, cnt => cnt
  | fuel + 1, cnt =>
    if getModuleName base cnt ∈ reg then findCnt base reg fuel (cnt + 1) else cnt

/-- The registry key `loadSource` assigns (docrunner.py lines 194-202):
the candidate name itself when free, otherwise the first suffixed name
starting from counter 2 that is absent from the registry. -/
def loadSourceKey (reg : List String) (moduleName : String) : String :=
  if moduleName ∈ reg then
    getModuleName moduleName (findCnt moduleName reg (reg.length + 1) 2)
  else moduleName

/-! Decimal-representation facts: `Nat.repr` is injective, hence suffixed
module names with distinct counters are distinct strings. -/

/-- Numeric value of a decimal digit character. -/
def decodeDigit (c : Char) : Nat := c.toNat - 48

/-- Decimal evaluation of a digit list, starting from accumulator `a`. -/
def evalFrom (a : Nat) (l : List Char) : Nat :=
  l.foldl (fun x c => 10 * x + decodeDigit c) a

/-- Reference decimal representation: most significant digit first, no
fuel. -/
def rep (n : Nat) : List Char :=
  if _h : n < 10 then [Nat.digitChar n]
  else rep (n / 10) ++ [Nat.digitChar (n % 10)]
decreasing_by
  exact Nat.div_lt_self (by omega) (by omega)


/-- Whether processing this example aborts the loop (KeyboardInterrupt or
the line-141 NameError). -/
def abortsOn (env : Env) (base : Nat) (test : DocTest) (e : Example) : Bool :=
  match runExample env base test e with
  | .abort _ => true
  | .msgs _ => false

/-- The messages one example contributes when it does not abort. -/
def exampleMsgs (env : Env) (base : Nat) (test : DocTest) (e : Example) : List Msg :=
  match runExample env base test e with
  | .abort _ => []
  | .msgs ms => ms

/-- Concatenated messages of a list of examples. -/
def msgsOfExamples (env : Env) (base : Nat) (test : DocTest) : List Example → List Msg
  | [] => []
  | e :: es => exampleMsgs env base test e ++ msgsOfExamples env base test es

/-- The abort, if any, of a one-group run. -/
def abortOf : Except (RunFault × List Msg) (List Msg) → Option RunFault
  | .ok _ => none
  | .error (f, _) => some f

/-- The NameError message, if any, of a whole driver run. -/
def errMsgOf : Except DriverError (List Msg) → Option String
  | .error (.nameError m) => some m
  | _ => none


/-! Spec-side definitions, written from the claim text (not from the
source), used only to compare the claimed behaviour with the embedded
behaviour. -/

/-- The number the claim says `testCount` announces: the total count of
examples across all resolved groups, skip-flagged examples excluded. -/
def spec_totalExamples (base : Nat) (ts : List DocTest) : Nat :=
  (ts.map (fun t => (t.examples.filter (fun e => !(skipped base e))).length)).sum

/-- The suite-name rule as the claim states it: the enclosing suite's name
concatenated with the group's own name, unless the group's own name
already contains a qualifier separator. -/
def spec_suiteName (enclosing own : String) : String :=
  if ('.' ∈ own.data) then own else enclosing ++ own

/-! Concrete fixtures for witnesses and counterexamples. -/

/-- A concrete oracle environment: `check` is string equality, `execute`
echoes the expected output except for source texts selecting a fault or a
wrong-output scenario, and the formatting helpers return fixed tags. -/
def env0 : Env where
  check := fun want got _ => want == got
  execute := fun e =>
    if e.source = "interrupt\n" then ("", some Fault.keyboardInterrupt)
    else if e.source = "boom\n" then ("", some (Fault.exc "ValueError: boom\n"))
    else if e.source = "detail\n" then ("", some (Fault.exc ("ValueError:" ++ " actual\n")))
    else if e.source = "wrong\n" then ("nope\n", none)
    else (e.want, none)
  realpath := fun s => s
  failureHeader := fun _ _ => "header "
  outputDifference := fun _ got _ => "expected vs " ++ got
  excTraceback := fun _ => "formatted traceback"

/-- The single embedded example of the end-to-end scenario. -/
def ex11 : Example := ⟨"1 + 1\n", "2\n", 0, none, []⟩

/-- The end-to-end group: one file with the one example. -/
def test11 : DocTest := ⟨"f.txt", "f.txt", 0, [ex11]⟩

/-- First passing example of the two-example group. -/
def ex2a : Example := ⟨"1 + 1\n", "2\n", 0, none, []⟩

/-- Second passing example of the two-example group, at offset 3. -/
def ex2b : Example := ⟨"2 + 2\n", "4\n", 3, none, []⟩

/-- A group with two passing examples at offsets 0 and 3. -/
def test2ex : DocTest := ⟨"m", "m.py", 5, [ex2a, ex2b]⟩

/-- An example whose execution raises KeyboardInterrupt. -/
def exKI : Example := ⟨"interrupt\n", "", 0, none, []⟩

/-- A group containing the KeyboardInterrupt example. -/
def testKI : DocTest := ⟨"tki", "fki", 0, [exKI]⟩

/-- An example whose execution raises an exception with no expected-fault
text declared. -/
def exBoom : Example := ⟨"boom\n", "", 0, none, []⟩

/-- A group in which every example raises an undeclared exception. -/
def testBoom : DocTest :=
  ⟨"tb", "fb", 2, [exBoom, ⟨"boom\n", "", 1, none, []⟩]⟩

/-- A group with a passing, a wrong-output, an erroring and a skipped
example. -/
def testMix : DocTest :=
  ⟨"tm", "fm", 1,
    [⟨"1 + 1\n", "2\n", 0, none, []⟩,
     ⟨"wrong\n", "2\n", 1, none, []⟩,
     ⟨"boom\n", "", 2, none, []⟩,
     ⟨"skipme\n", "", 3, none, [(SKIP, true)]⟩]⟩

/-- The ignore-exception-detail scenario: the raised message and the
declared message differ only after the first colon and the flag is set. -/
def exIgnore : Example :=
  ⟨"detail\n", "", 0, some ("ValueError:" ++ " expected\n"), [(IGNORE_EXCEPTION_DETAIL, true)]⟩

/-- A group containing only the ignore-exception-detail example. -/
def testIgnore : DocTest := ⟨"ti", "fi", 0, [exIgnore]⟩

/-- A group whose name has no qualifier separator. -/
def testPlain : DocTest := ⟨"g", "fg", 0, [⟨"1 + 1\n", "2\n", 0, none, []⟩]⟩

/-- A module with a single member named Other. -/
def moduleOther : ModuleInfo := ⟨[("Other", [])]⟩

/-- The per-message property claim C10 asserts about the fixed message
fields: a testFailed message always carries the constant text Failure and
a testError message the constant text Error. -/
def goodFields : Msg → Prop
  | .testFailed _ m _ => m = "Failure"
  | .testError _ m _ => m = "Error"
  | _ => True


/-! Proof development. -/

theorem decodeDigit_digitChar : ∀ d, d < 10 → decodeDigit (Nat.digitChar d) = d := by
  decide

theorem toDigitsCore_eq_rep :
    ∀ fuel n ds, n < 10 ^ fuel → 0 < fuel →
      Nat.toDigitsCore 10 fuel n ds = rep n ++ ds := by
  intro fuel
  induction fuel with
  | zero => intro n ds _ h; omega
  | succ f ih =>
    intro n ds hlt _
    show (if n / 10 = 0 then Nat.digitChar (n % 10) :: ds
          else Nat.toDigitsCore 10 f (n / 10) (Nat.digitChar (n % 10) :: ds))
        = rep n ++ ds
    by_cases h10 : n / 10 = 0
    · have hn : n < 10 := by omega
      rw [if_pos h10, rep]
      simp [hn, Nat.mod_eq_of_lt hn]
    · have hn : ¬ n < 10 := by omega
      have hf : 0 < f := by
        by_contra hf0
        have : f = 0 := by omega
        subst this
        simp [pow_succ, pow_zero] at hlt
        omega
      have hdiv : n / 10 < 10 ^ f := by
        have := Nat.div_add_mod n 10
        have hpow : 10 ^ (f + 1) = 10 ^ f * 10 := by rw [pow_succ]
        rw [hpow] at hlt
        omega
      rw [if_neg h10, ih (n / 10) (Nat.digitChar (n % 10) :: ds) hdiv hf]
      conv_rhs => rw [rep]
      simp [hn]

theorem evalFrom_rep : ∀ n a, evalFrom a (rep n) = a * 10 ^ (rep n).length + n := by
  intro n
  induction n using Nat.strong_induction_on with
  | _ n ih =>
    intro a
    rw [rep]
    by_cases h : n < 10
    · simp only [h, dif_pos]
      simp [evalFrom, decodeDigit_digitChar n h]
      omega
    · simp only [h, dif_neg, not_false_iff]
      have hrec : n / 10 < n := Nat.div_lt_self (by omega) (by omega)
      have hmod : n % 10 < 10 := Nat.mod_lt _ (by omega)
      simp only [evalFrom, List.foldl_append, List.foldl_cons, List.foldl_nil,
        List.length_append, List.length_cons, List.length_nil]
      have := ih (n / 10) hrec a
      simp only [evalFrom] at this
      rw [this, decodeDigit_digitChar _ hmod]
      have hp : 10 ^ ((rep (n / 10)).length + (0 + 1)) = 10 ^ (rep (n / 10)).length * 10 := by
        rw [Nat.zero_add, pow_succ]
      rw [hp]
      have hdm : 10 * (n / 10) + n % 10 = n := by omega
      ring_nf
      omega

theorem rep_injective {a b : Nat} (h : rep a = rep b) : a = b := by
  have ha := evalFrom_rep a 0
  have hb := evalFrom_rep b 0
  rw [h] at ha
  simp at ha hb
  omega

theorem repr_injective {a b : Nat} (h : Nat.repr a = Nat.repr b) : a = b := by
  have hdig : Nat.toDigits 10 a = Nat.toDigits 10 b := by
    have := congrArg String.data h
    simpa [Nat.repr, List.asString] using this
  have hlt : ∀ n : Nat, n < 10 ^ (n + 1) := by
    intro n
    calc n < 10 ^ n := Nat.lt_pow_self (by omega) n
    _ ≤ 10 ^ (n + 1) := Nat.pow_le_pow_right (by omega) (by omega)
  have ha := toDigitsCore_eq_rep (a + 1) a [] (hlt a) (by omega)
  have hb := toDigitsCore_eq_rep (b + 1) b [] (hlt b) (by omega)
  simp only [Nat.toDigits] at hdig
  rw [ha, hb] at hdig
  simp at hdig
  exact rep_injective hdig

theorem getModuleName_inj {base : String} {a b : Nat}
    (h : getModuleName base a = getModuleName base b) : a = b := by
  unfold getModuleName at h
  have hd := congrArg String.data h
  simp only [String.data_append] at hd
  have := List.append_cancel_left hd
  exact repr_injective (String.ext this)

theorem findCnt_free (base : String) (reg : List String) :
    ∀ fuel cnt, (∃ j, j < fuel ∧ getModuleName base (cnt + j) ∉ reg) →
      getModuleName base (findCnt base reg fuel cnt) ∉ reg := by
  intro fuel
  induction fuel with
  | zero => intro cnt ⟨j, hj, _⟩; omega
  | succ f ih =>
    intro cnt ⟨j, hj, hfree⟩
    rw [findCnt]
    by_cases hmem : getModuleName base cnt ∈ reg
    · rw [if_pos hmem]
      apply ih
      have hj0 : j ≠ 0 := by
        intro h0
        subst h0
        simp at hfree
        exact hfree hmem
      refine ⟨j - 1, by omega, ?_⟩
      have : cnt + 1 + (j - 1) = cnt + j := by omega
      rw [this]
      exact hfree
    · rw [if_neg hmem]
      exact hmem

theorem exists_free_cnt (base : String) (reg : List String) (cnt : Nat) :
    ∃ j, j < reg.length + 1 ∧ getModuleName base (cnt + j) ∉ reg := by
  by_contra hall
  push_neg at hall
  have hmaps : ∀ j ∈ Finset.range (reg.length + 1),
      getModuleName base (cnt + j) ∈ reg.toFinset := by
    intro j hj
    rw [List.mem_toFinset]
    exact hall j (Finset.mem_range.mp hj)
  have hinj : Set.InjOn (fun j => getModuleName base (cnt + j))
      (Finset.range (reg.length + 1)) := by
    intro x _ y _ hxy
    have := getModuleName_inj hxy
    omega
  have hcard := Finset.card_le_card_of_injOn _ hmaps hinj
  rw [Finset.card_range] at hcard
  have := List.toFinset_card_le reg
  omega

theorem loadSourceKey_fresh (reg : List String) (moduleName : String) :
    loadSourceKey reg moduleName ∉ reg := by
  unfold loadSourceKey
  by_cases hmem : moduleName ∈ reg
  · rw [if_pos hmem]
    exact findCnt_free moduleName reg (reg.length + 1) 2
      (exists_free_cnt moduleName reg 2)
  · rw [if_neg hmem]
    exact hmem

theorem runExample_cases (env : Env) (base : Nat) (test : DocTest) (e : Example) :
    (skipped base e = true ∧ runExample env base test e = .msgs []) ∨
    (∃ f, runExample env base test e = .abort f) ∨
    (skipped base e = false ∧ ∃ m2, runExample env base test e =
        .msgs [.testStarted (getTestName test e) (getTestId env.realpath test e), m2] ∧
      (m2 = .testFinished (getTestName test e) ∨
       (∃ d, m2 = .testFailed (getTestName test e) "Failure" d) ∨
       (∃ d, m2 = .testError (getTestName test e) "Error" d))) := by
  unfold runExample
  by_cases hskip : (exampleFlags base e &&& SKIP != 0) = true
  · exact Or.inl ⟨hskip, by simp [hskip]⟩
  · right
    have hs : skipped base e = false := by
      unfold skipped
      simpa using hskip
    simp only [hskip, if_neg, Bool.not_eq_true] at *
    cases hf : (env.execute e).2 with
    | none =>
      right
      refine ⟨hs, ?_⟩
      by_cases hc : env.check e.want (env.execute e).1 (exampleFlags base e) = true
      · exact ⟨Msg.testFinished (getTestName test e), by simp [hf, hc], Or.inl rfl⟩
      · exact ⟨Msg.testFailed (getTestName test e) "Failure"
            (env.failureHeader test e
              ++ env.outputDifference e (env.execute e).1 (exampleFlags base e)),
          by simp [hf, hc], Or.inr (Or.inl ⟨_, rfl⟩)⟩
    | some fault =>
      cases fault with
      | keyboardInterrupt => exact Or.inl ⟨RunFault.keyboardInterrupt, by simp [hf]⟩
      | exc m =>
        cases hex : e.exc_msg with
        | none =>
          right
          exact ⟨hs, Msg.testError (getTestName test e) "Error"
              (env.failureHeader test e ++ "Exception raised:\n"
                ++ env.excTraceback (Fault.exc m)),
            by simp [hf, hex], Or.inr (Or.inr ⟨_, rfl⟩)⟩
        | some wantExc =>
          by_cases hc : env.check wantExc m (exampleFlags base e) = true
          · right
            exact ⟨hs, Msg.testFinished (getTestName test e),
              by simp [hf, hex, hc], Or.inl rfl⟩
          · exact Or.inl ⟨RunFault.nameError "IGNORE_EXCEPTION_DETAIL",
              by simp [hf, hex, hc]⟩

theorem runExample_of_not_abort {env : Env} {base : Nat} {test : DocTest} {e : Example}
    (h : abortsOn env base test e = false) :
    runExample env base test e = .msgs (exampleMsgs env base test e) := by
  unfold abortsOn at h
  cases hr : runExample env base test e with
  | msgs ms => simp [exampleMsgs, hr]
  | abort f => rw [hr] at h; simp at h

theorem runLoop_ok (env : Env) (base : Nat) (test : DocTest) :
    ∀ es, (∀ e ∈ es, abortsOn env base test e = false) →
      runLoop env base test es = .ok (msgsOfExamples env base test es) := by
  intro es
  induction es with
  | nil => intro _; rfl
  | cons e es ih =>
    intro h
    have he := runExample_of_not_abort (h e (List.mem_cons_self e es))
    have hrest := ih (fun x hx => h x (List.mem_cons_of_mem e hx))
    rw [runLoop, he, hrest]
    rfl

theorem mem_msgsOfExamples {env : Env} {base : Nat} {test : DocTest}
    {e : Example} {m : Msg} :
    ∀ {es : List Example}, e ∈ es → m ∈ exampleMsgs env base test e →
      m ∈ msgsOfExamples env base test es := by
  intro es
  induction es with
  | nil => intro h; cases h
  | cons x xs ih =>
    intro hmem hm
    rw [msgsOfExamples, List.mem_append]
    rcases List.mem_cons.mp hmem with heq | htail
    · subst heq; exact Or.inl hm
    · exact Or.inr (ih htail hm)

theorem traceOf_runLoop_cons (env : Env) (base : Nat) (test : DocTest)
    (e : Example) (es : List Example) :
    traceOf (runLoop env base test (e :: es)) =
      (match runExample env base test e with
       | .abort _ => []
       | .msgs ms => ms ++ traceOf (runLoop env base test es)) := by
  rw [runLoop]
  cases runExample env base test e with
  | abort f => rfl
  | msgs ms =>
    cases hr : runLoop env base test es with
    | ok r => rfl
    | error p => obtain ⟨f, rest⟩ := p; rfl

theorem goodFields_runLoop (env : Env) (base : Nat) (test : DocTest) :
    ∀ es, ∀ m ∈ traceOf (runLoop env base test es), goodFields m := by
  intro es
  induction es with
  | nil => intro m hm; cases hm
  | cons e es ih =>
    intro m hm
    rw [traceOf_runLoop_cons] at hm
    rcases runExample_cases env base test e with ⟨_, he⟩ | ⟨f, he⟩ | ⟨_, m2, he, hshape⟩
    · rw [he] at hm
      exact ih m hm
    · rw [he] at hm
      cases hm
    · rw [he] at hm
      simp only [List.cons_append, List.nil_append, List.mem_cons] at hm
      rcases hm with h1 | h2 | h3
      · subst h1; trivial
      · subst h2
        rcases hshape with h | ⟨d, h⟩ | ⟨d, h⟩ <;> subst h <;> simp [goodFields]
      · exact ih m h3

theorem goodFields_runOne (env : Env) (base : Nat) (test : DocTest) :
    ∀ m ∈ traceOf (runOne env base test), goodFields m := by
  intro m hm
  unfold runOne at hm
  cases h : runLoop env base test test.examples with
  | ok ms =>
    rw [h] at hm
    simp only [traceOf, List.cons_append, List.mem_cons, List.mem_append,
      List.mem_singleton] at hm
    rcases hm with h1 | h2 | h3 | h4
    · subst h1; trivial
    · have := goodFields_runLoop env base test test.examples m
      rw [h] at this
      exact this h2
    · subst h3; trivial
    · cases h4
  | error p =>
    obtain ⟨f, ms⟩ := p
    rw [h] at hm
    simp only [traceOf, List.mem_cons] at hm
    rcases hm with h1 | h2
    · subst h1; trivial
    · have := goodFields_runLoop env base test test.examples m
      rw [h] at this
      exact this h2

theorem details_of_testFailed {env : Env} {base : Nat} {test : DocTest} {e : Example}
    {n msg d : String}
    (hm : Msg.testFailed n msg d ∈ exampleMsgs env base test e) :
    d = env.failureHeader test e
      ++ env.outputDifference e (env.execute e).1 (exampleFlags base e) := by
  unfold exampleMsgs runExample at hm
  by_cases hskip : (exampleFlags base e &&& SKIP != 0) = true
  · simp [hskip] at hm
  · simp only [hskip, if_neg, Bool.not_eq_true] at hm
    cases hf : (env.execute e).2 with
    | none =>
      by_cases hc : env.check e.want (env.execute e).1 (exampleFlags base e) = true
      · simp [hf, hc] at hm
      · simp [hf, hc] at hm
        exact hm.2.2
    | some fault =>
      cases fault with
      | keyboardInterrupt => simp [hf] at hm
      | exc m =>
        cases hex : e.exc_msg with
        | none => simp [hf, hex] at hm
        | some wantExc =>
          by_cases hc : env.check wantExc m (exampleFlags base e) = true
          · simp [hf, hex, hc] at hm
          · simp [hf, hex, hc] at hm

theorem details_of_testError {env : Env} {base : Nat} {test : DocTest} {e : Example}
    {n msg d : String}
    (hm : Msg.testError n msg d ∈ exampleMsgs env base test e) :
    ∃ fm, (env.execute e).2 = some (Fault.exc fm) ∧
      d = env.failureHeader test e ++ "Exception raised:\n"
        ++ env.excTraceback (Fault.exc fm) := by
  unfold exampleMsgs runExample at hm
  by_cases hskip : (exampleFlags base e &&& SKIP != 0) = true
  · simp [hskip] at hm
  · simp only [hskip, if_neg, Bool.not_eq_true] at hm
    cases hf : (env.execute e).2 with
    | none =>
      by_cases hc : env.check e.want (env.execute e).1 (exampleFlags base e) = true
      · simp [hf, hc] at hm
      · simp [hf, hc] at hm
    | some fault =>
      cases fault with
      | keyboardInterrupt => simp [hf] at hm
      | exc m =>
        cases hex : e.exc_msg with
        | none =>
          simp [hf, hex] at hm
          exact ⟨m, rfl, hm.2.2⟩
        | some wantExc =>
          by_cases hc : env.check wantExc m (exampleFlags base e) = true
          · simp [hf, hex, hc] at hm
          · simp [hf, hex, hc] at hm

/-! Claims. -/

/-- Claim C8: for any two distinct source loads in one run whose files
share a base name, the loader assigns distinct keys in the process-wide
module registry, resolving collisions by an incrementing numeric suffix;
every load inserts a key not previously present in the registry. -/
theorem c8_registry_keys_fresh (reg : List String) (moduleName : String) :
    loadSourceKey reg moduleName ∉ reg ∧
    ∀ name2, loadSourceKey (loadSourceKey reg moduleName :: reg) name2 ≠
      loadSourceKey reg moduleName := by
  refine ⟨loadSourceKey_fresh reg moduleName, ?_⟩
  intro name2 heq
  have h := loadSourceKey_fresh (loadSourceKey reg moduleName :: reg) name2
  rw [heq] at h
  exact h (List.mem_cons_self _ _)

/-- Claim C9, amended: the suite-started message carries the group's own
name verbatim (`startSuite` emits `suite.name`, docrunner.py line 44); the
concatenation rule with a qualifier-separator exception exists only in the
dead method `getSuiteName`, which is never called and references an
undefined variable. -/
theorem c9_suite_started_name (env : Env) (base : Nat) (test : DocTest) :
    (traceOf (runOne env base test)).head? =
      some (Msg.testSuiteStarted test.name (getSuiteLocation env.realpath test)) := by
  unfold runOne
  cases h : runLoop env base test test.examples with
  | ok ms => rfl
  | error p => obtain ⟨f, ms⟩ := p; rfl

/-- Claim C9, counterexample: for a group named g (no qualifier separator)
under an enclosing suite named outer, the claimed name rule produces
outerg, but the emitted suite-started message carries g verbatim. -/
theorem c9_counterexample :
    (traceOf (runOne env0 0 testPlain)).head? =
      some (Msg.testSuiteStarted "g" "file://fg:0") ∧
    testPlain.name = "g" ∧
    ('.' ∉ testPlain.name.data) ∧
    spec_suiteName "outer" testPlain.name = "outerg" ∧
    ("g" : String) ≠ "outerg" := by
  refine ⟨rfl, rfl, by decide, by decide, by decide⟩

/-- Claim C10: every testFailed message in a run's output carries exactly
the constant text Failure in its message field and every testError message
exactly the constant text Error; the expected-versus-actual diff and the
formatted fault trace go only to the details field. -/
theorem c10_outcome_message_fields (env : Env) (base : Nat) (test : DocTest)
    (n msg d : String) :
    (Msg.testFailed n msg d ∈ traceOf (runOne env base test) → msg = "Failure") ∧
    (Msg.testError n msg d ∈ traceOf (runOne env base test) → msg = "Error") ∧
    (∀ e, Msg.testFailed n msg d ∈ exampleMsgs env base test e →
      d = env.failureHeader test e
        ++ env.outputDifference e (env.execute e).1 (exampleFlags base e)) ∧
    (∀ e, Msg.testError n msg d ∈ exampleMsgs env base test e →
      ∃ fm, (env.execute e).2 = some (Fault.exc fm) ∧
        d = env.failureHeader test e ++ "Exception raised:\n"
          ++ env.excTraceback (Fault.exc fm)) := by
  refine ⟨fun hm => ?_, fun hm => ?_, fun e hm => details_of_testFailed hm,
    fun e hm => details_of_testError hm⟩
  · exact goodFields_runOne env base test _ hm
  · exact goodFields_runOne env base test _ hm

/-- Claim C10, witness: in the mixed concrete group one example fails and
one errors; the emitted message fields are the constants Failure and
Error, and the details fields carry the formatted diff and trace. -/
theorem c10_outcome_message_fields_witness :
    Msg.testFailed "tmwrong\n" "Failure" "header expected vs nope\n"
      ∈ traceOf (runOne env0 0 testMix) ∧
    Msg.testError "tmboom\n" "Error" "header Exception raised:\nformatted traceback"
      ∈ traceOf (runOne env0 0 testMix) ∧
    "Failure" = "Failure" ∧ "Error" = "Error" := by
  refine ⟨by decide, by decide, ?_, ?_⟩
  · exact (c10_outcome_message_fields env0 0 testMix "tmwrong\n" "Failure"
      "header expected vs nope\n").1 (by decide)
  · exact (c10_outcome_message_fields env0 0 testMix "tmboom\n" "Error"
      "header Exception raised:\nformatted traceback").2.1 (by decide)

/-- Claim C1: the suite-started message's location is exactly file://
followed by the real path of the group's filename, a colon and the group's
start line, and each reported (non-skipped) example's test-started message
carries file:// with the same path, a colon, and the start line plus the
example's line offset, the numbers being those carried by the group and
example records. -/
theorem c1_locations (env : Env) (base : Nat) (test : DocTest) (e : Example)
    (he : e ∈ test.examples)
    (hnab : ∀ x ∈ test.examples, abortsOn env base test x = false)
    (hs : skipped base e = false) :
    Msg.testSuiteStarted test.name
        ("file://" ++ env.realpath test.filename ++ ":" ++ Nat.repr test.lineno)
      ∈ traceOf (runOne env base test) ∧
    Msg.testStarted (getTestName test e)
        ("file://" ++ env.realpath test.filename ++ ":"
          ++ Nat.repr (test.lineno + e.lineno))
      ∈ traceOf (runOne env base test) := by
  have hloop := runLoop_ok env base test test.examples hnab
  unfold runOne
  rw [hloop]
  constructor
  · exact List.mem_cons_self _ _
  · have hstart : Msg.testStarted (getTestName test e) (getTestId env.realpath test e)
        ∈ exampleMsgs env base test e := by
      rcases runExample_cases env base test e with ⟨hsk, _⟩ | ⟨f, hab⟩ | ⟨_, m2, hmsgs, _⟩
      · rw [hsk] at hs; cases hs
      · have h2 := hnab e he
        unfold abortsOn at h2
        rw [hab] at h2
        cases h2
      · unfold exampleMsgs
        rw [hmsgs]
        exact List.mem_cons_self _ _
    have hmem := mem_msgsOfExamples he hstart
    exact List.mem_cons_of_mem _ (List.mem_append_left _ hmem)

/-- Claim C1, witness: in the concrete two-example group starting at line
5 of m.py, the suite location is file://m.py:5 and the second example at
offset 3 is started with location file://m.py:8. -/
theorem c1_locations_witness :
    ex2b ∈ test2ex.examples ∧
    (∀ x ∈ test2ex.examples, abortsOn env0 0 test2ex x = false) ∧
    skipped 0 ex2b = false ∧
    Msg.testSuiteStarted "m" "file://m.py:5" ∈ traceOf (runOne env0 0 test2ex) ∧
    Msg.testStarted "m2 + 2\n" "file://m.py:8" ∈ traceOf (runOne env0 0 test2ex) := by
  refine ⟨by decide, by decide, by decide, ?_⟩
  have h := c1_locations env0 0 test2ex ex2b (by decide) (by decide) (by decide)
  simpa using h

/-- Claim C2, amended: provided no example of the group aborts the loop (no
example raises KeyboardInterrupt, and no example both declares an
expected-fault text and raises a fault whose message fails the full-text
comparison, which crashes the run with a NameError), the emitted sequence
for a group is exactly one testSuiteStarted, then per non-skipped example
exactly one testStarted followed by exactly one of testFinished,
testFailed or testError, then one testSuiteFinished; this holds when every
example errors, and a skip-flagged example contributes no messages. -/
theorem c2_message_sequence (env : Env) (base : Nat) (test : DocTest)
    (h : ∀ e ∈ test.examples, abortsOn env base test e = false) :
    runOne env base test = .ok
      (Msg.testSuiteStarted test.name (getSuiteLocation env.realpath test)
        :: msgsOfExamples env base test test.examples
        ++ [Msg.testSuiteFinished test.name]) ∧
    ∀ e ∈ test.examples,
      (skipped base e = true → exampleMsgs env base test e = []) ∧
      (skipped base e = false → ∃ m2,
        exampleMsgs env base test e =
          [Msg.testStarted (getTestName test e) (getTestId env.realpath test e), m2] ∧
        (m2 = Msg.testFinished (getTestName test e) ∨
         (∃ d, m2 = Msg.testFailed (getTestName test e) "Failure" d) ∨
         (∃ d, m2 = Msg.testError (getTestName test e) "Error" d))) := by
  constructor
  · unfold runOne
    rw [runLoop_ok env base test test.examples h]
  · intro e he
    rcases runExample_cases env base test e with ⟨hsk, hmsgs⟩ | ⟨f, hab⟩ |
      ⟨hns, m2, hmsgs, hshape⟩
    · refine ⟨fun _ => ?_, fun hf => ?_⟩
      · unfold exampleMsgs
        rw [hmsgs]
      · rw [hsk] at hf; cases hf
    · have h2 := h e he
      unfold abortsOn at h2
      rw [hab] at h2
      cases h2
    · refine ⟨fun ht => ?_, fun _ => ⟨m2, ?_, hshape⟩⟩
      · rw [hns] at ht; cases ht
      · unfold exampleMsgs
        rw [hmsgs]

/-- Claim C2, witness: in the concrete group in which every example raises
an undeclared exception, the emitted sequence is testSuiteStarted, then
testStarted and testError for each example, then testSuiteFinished. -/
theorem c2_message_sequence_witness :
    (∀ e ∈ testBoom.examples, abortsOn env0 0 testBoom e = false) ∧
    runOne env0 0 testBoom = .ok
      [Msg.testSuiteStarted "tb" "file://fb:2",
       Msg.testStarted "tbboom\n" "file://fb:2",
       Msg.testError "tbboom\n" "Error" "header Exception raised:\nformatted traceback",
       Msg.testStarted "tbboom\n" "file://fb:3",
       Msg.testError "tbboom\n" "Error" "header Exception raised:\nformatted traceback",
       Msg.testSuiteFinished "tb"] := by
  refine ⟨by decide, ?_⟩
  have h := (c2_message_sequence env0 0 testBoom (by decide)).1
  rw [h]
  rfl

/-- Claim C2, counterexample: a group whose only example raises
KeyboardInterrupt emits testSuiteStarted and then aborts, so the sequence
contains no testStarted, no outcome message and no testSuiteFinished. -/
theorem c2_counterexample :
    runOne env0 0 testKI = .error (RunFault.keyboardInterrupt,
      [Msg.testSuiteStarted "tki" "file://fki:0"]) ∧
    Msg.testSuiteFinished "tki" ∉ traceOf (runOne env0 0 testKI) ∧
    abortOf (runOne env0 0 testKI) = some RunFault.keyboardInterrupt := by
  refine ⟨rfl, by decide, by decide⟩

/-- Claim C3, amended: after resolving all targets the driver announces via
testCount the number of resolved example groups stored in the runner
(`len(self._tests)`), not the total number of examples; the announcement
follows testMatrixEntered. -/
theorem c3_testCount_groups (env : Env) (args : List Arg) (ts : List DocTest)
    (h : resolveArgs args = .ok ts) :
    (emittedOf (mainRun env args)).take 2 =
      [Msg.testMatrixEntered, Msg.testCount ts.length] := by
  have hres : (emittedOf (mainRunResolved env ts)).take 2 =
      [Msg.testMatrixEntered, Msg.testCount ts.length] := by
    unfold mainRunResolved
    cases hr : runAll env 0 ts with
    | ok ms => rfl
    | error p => obtain ⟨f, ms⟩ := p; rfl
  unfold mainRun
  rw [h]
  exact hres

/-- Claim C3, witness: resolving one file argument holding one group of two
examples makes the driver announce testCount 1 (the group count). -/
theorem c3_testCount_groups_witness :
    resolveArgs [Arg.fromFile "m.py" [test2ex]] = .ok [test2ex] ∧
    (emittedOf (mainRun env0 [Arg.fromFile "m.py" [test2ex]])).take 2 =
      [Msg.testMatrixEntered, Msg.testCount 1] := by
  refine ⟨rfl, ?_⟩
  have h := c3_testCount_groups env0 [Arg.fromFile "m.py" [test2ex]] [test2ex] rfl
  simpa using h

/-- Claim C3, counterexample: with one resolved group of two (non-skipped)
examples the claim predicts testCount 2, but the driver announces
testCount 1 and no testCount 2 message appears anywhere in the run. -/
theorem c3_counterexample :
    (emittedOf (mainRun env0 [Arg.fromFile "m.py" [test2ex]])).take 2 =
      [Msg.testMatrixEntered, Msg.testCount 1] ∧
    spec_totalExamples 0 [test2ex] = 2 ∧
    Msg.testCount 2 ∉ emittedOf (mainRun env0 [Arg.fromFile "m.py" [test2ex]]) := by
  refine ⟨by decide, by decide, by decide⟩

/-- Claim C4, amended: for a file containing exactly one embedded example
1 + 1 with expected output 2, the driver emits, in order,
testMatrixEntered, testCount 1, testSuiteStarted, testStarted,
testFinished, testSuiteFinished — testMatrixEntered before testCount
(docrunner.py lines 343-344). -/
theorem c4_end_to_end :
    mainRun env0 [Arg.fromFile "f.txt" [test11]] = .ok
      [Msg.testMatrixEntered,
       Msg.testCount 1,
       Msg.testSuiteStarted "f.txt" "file://f.txt:0",
       Msg.testStarted "f.txt1 + 1\n" "file://f.txt:0",
       Msg.testFinished "f.txt1 + 1\n",
       Msg.testSuiteFinished "f.txt"] := rfl

/-- Claim C4, counterexample: the first emitted message of that run is
testMatrixEntered, not testCount 1 as the claim orders them. -/
theorem c4_counterexample :
    (emittedOf (mainRun env0 [Arg.fromFile "f.txt" [test11]])).head? =
      some Msg.testMatrixEntered ∧
    Msg.testMatrixEntered ≠ Msg.testCount 1 := by
  refine ⟨rfl, by decide⟩

/-- Claim C5, amended: an example that raises a fault other than
KeyboardInterrupt while declaring no expected-fault text is classified
Error (testStarted then testError), never Failure; the fault is contained
and the loop proceeds with the next example. A KeyboardInterrupt raised by
an example is re-raised and aborts the run (docrunner.py lines 116-117). -/
theorem c5_error_contained (env : Env) (base : Nat) (test : DocTest) (e : Example)
    (got m : String)
    (hs : skipped base e = false)
    (hx : env.execute e = (got, some (Fault.exc m)))
    (hnone : e.exc_msg = none) :
    runExample env base test e = .msgs
      [Msg.testStarted (getTestName test e) (getTestId env.realpath test e),
       Msg.testError (getTestName test e) "Error"
         (env.failureHeader test e ++ "Exception raised:\n"
           ++ env.excTraceback (Fault.exc m))] ∧
    abortsOn env base test e = false ∧
    ∀ rest r, runLoop env base test rest = .ok r →
      runLoop env base test (e :: rest) = .ok
        (Msg.testStarted (getTestName test e) (getTestId env.realpath test e)
          :: Msg.testError (getTestName test e) "Error"
              (env.failureHeader test e ++ "Exception raised:\n"
                ++ env.excTraceback (Fault.exc m))
          :: r) := by
  unfold skipped at hs
  have hrun : runExample env base test e = .msgs
      [Msg.testStarted (getTestName test e) (getTestId env.realpath test e),
       Msg.testError (getTestName test e) "Error"
         (env.failureHeader test e ++ "Exception raised:\n"
           ++ env.excTraceback (Fault.exc m))] := by
    unfold runExample
    simp [hs, hx, hnone]
  refine ⟨hrun, ?_, ?_⟩
  · unfold abortsOn
    rw [hrun]
  · intro rest r hr
    rw [runLoop, hrun, hr]
    rfl

/-- Claim C5, witness: the concrete undeclared-exception example is
reported as testStarted then testError, and with a singleton continuation
the loop proceeds past it. -/
theorem c5_error_contained_witness :
    skipped 0 exBoom = false ∧
    env0.execute exBoom = ("", some (Fault.exc "ValueError: boom\n")) ∧
    exBoom.exc_msg = none ∧
    runExample env0 0 testBoom exBoom = .msgs
      [Msg.testStarted "tbboom\n" "file://fb:2",
       Msg.testError "tbboom\n" "Error" "header Exception raised:\nformatted traceback"] ∧
    abortsOn env0 0 testBoom exBoom = false := by
  refine ⟨by decide, by decide, by decide, ?_, ?_⟩
  · have h := (c5_error_contained env0 0 testBoom exBoom "" "ValueError: boom\n"
      (by decide) (by decide) (by decide)).1
    simpa using h
  · exact (c5_error_contained env0 0 testBoom exBoom "" "ValueError: boom\n"
      (by decide) (by decide) (by decide)).2.1

/-- Claim C5, counterexample: an example that raises KeyboardInterrupt
with no expected-fault text declared is not classified Error; the fault
propagates and the run aborts with only testSuiteStarted emitted. -/
theorem c5_counterexample :
    env0.execute exKI = ("", some Fault.keyboardInterrupt) ∧
    exKI.exc_msg = none ∧
    runExample env0 0 testKI exKI = .abort RunFault.keyboardInterrupt ∧
    traceOf (runOne env0 0 testKI) = [Msg.testSuiteStarted "tki" "file://fki:0"] := by
  refine ⟨by decide, by decide, by decide, by decide⟩

/-- Claim C6 (code bug): with the ignore-exception-detail flag active and
expected and raised fault messages agreeing up to and including the first
colon, the claim (and doctest semantics) demand Success, but line 141
evaluates the unimported name IGNORE_EXCEPTION_DETAIL, so the runner
raises NameError and aborts the group before reporting anything for the
example. -/
theorem c6_ignore_exception_detail_name_error :
    exIgnore.exc_msg = some ("ValueError:" ++ " expected\n") ∧
    env0.execute exIgnore = ("", some (Fault.exc ("ValueError:" ++ " actual\n"))) ∧
    exampleFlags 0 exIgnore &&& IGNORE_EXCEPTION_DETAIL = IGNORE_EXCEPTION_DETAIL ∧
    skipped 0 exIgnore = false ∧
    runExample env0 0 testIgnore exIgnore =
      .abort (RunFault.nameError "IGNORE_EXCEPTION_DETAIL") ∧
    runOne env0 0 testIgnore = .error (RunFault.nameError "IGNORE_EXCEPTION_DETAIL",
      [Msg.testSuiteStarted "ti" "file://fi:0"]) := by
  refine ⟨rfl, by decide, by decide, by decide, by decide, rfl⟩

/-- Claim C7: a path::ClassName argument whose file loads but whose module
has no such member raises a NameError naming both the path and the member,
and the run emits no protocol messages at all. -/
theorem c7_member_not_found (env : Env) (path cls : String) (m : ModuleInfo)
    (hmem : m.members.lookup cls = none) :
    errMsgOf (mainRun env [Arg.fromClass path cls (LoadResult.ok m)]) =
      some ("Module \x22" ++ path ++ "\x22 has no class \x22" ++ cls ++ "\x22") ∧
    emittedOf (mainRun env [Arg.fromClass path cls (LoadResult.ok m)]) = [] ∧
    (∃ s t, "Module \x22" ++ path ++ "\x22 has no class \x22" ++ cls ++ "\x22"
      = s ++ path ++ t) ∧
    (∃ s t, "Module \x22" ++ path ++ "\x22 has no class \x22" ++ cls ++ "\x22"
      = s ++ cls ++ t) := by
  have h1 : resolveArg (Arg.fromClass path cls (LoadResult.ok m)) =
      .error ("Module \x22" ++ path ++ "\x22 has no class \x22" ++ cls ++ "\x22") := by
    simp only [resolveArg]
    rw [hmem]
  have hres : resolveArgs [Arg.fromClass path cls (LoadResult.ok m)] =
      .error ("Module \x22" ++ path ++ "\x22 has no class \x22" ++ cls ++ "\x22") := by
    simp only [resolveArgs]
    rw [h1]
  refine ⟨?_, ?_, ?_, ?_⟩
  · unfold mainRun
    rw [hres]
    rfl
  · unfold mainRun
    rw [hres]
    rfl
  · refine ⟨"Module \x22", "\x22 has no class \x22" ++ cls ++ "\x22", ?_⟩
    apply String.ext
    simp [List.append_assoc]
  · refine ⟨"Module \x22" ++ path ++ "\x22 has no class \x22", "\x22", ?_⟩
    apply String.ext
    simp [List.append_assoc]

/-- Claim C7, witness: requesting file.py::MissingClass against a module
whose only member is Other yields the NameError message naming file.py and
MissingClass, with an empty protocol trace. -/
theorem c7_member_not_found_witness :
    moduleOther.members.lookup "MissingClass" = none ∧
    errMsgOf (mainRun env0 [Arg.fromClass "file.py" "MissingClass"
        (LoadResult.ok moduleOther)]) =
      some "Module \x22file.py\x22 has no class \x22MissingClass\x22" ∧
    emittedOf (mainRun env0 [Arg.fromClass "file.py" "MissingClass"
        (LoadResult.ok moduleOther)]) = [] := by
  refine ⟨by decide, ?_, ?_⟩
  · have h := (c7_member_not_found env0 "file.py" "MissingClass" moduleOther
      (by decide)).1
    simpa using h
  · exact (c7_member_not_found env0 "file.py" "MissingClass" moduleOther
      (by decide)).2.1

end Docrunner
